import Mathlib

/-!
Verification of the feature-classification pipeline of the plant-classifier
repository, a shallow embedding of `src/server/improved-sklearn-classifier.py`
and `src/server/sklearn-plant-classifier.py`.

Conventions of the embedding:
* numpy float arrays become `List ℚ`; one-row 2-D arrays (`shape (1, n)`)
  become the list of their single row;
* the OpenCV library calls (`cvtColor`, `resize`, `Sobel` kernels applied to
  single pixels) and the square root used by `ndarray.std` are grouped in a
  `CvOps` record; theorems constrain them only through explicit hypotheses
  that restate OpenCV's documented conversion values at the pixels involved;
* Python exceptions become `Except PyErr`, with `try/except` blocks embedded
  as matches on the `Except` value; a function that cannot raise is total;
* the classifier object's fields (`self.model`, `self.pca`, `self.scaler`,
  the label table) become an explicit state record threaded through the
  state-passing variants of the classify operations.
-/

namespace Plant

/-- Length-reconciliation policy of `extract_features_robust`
(improved-sklearn-classifier.py, lines 110–116) and of the inline recovery
code in `classify_image_safe` (lines 143–149): truncate to the first `W`
entries when longer, right-pad with zeros when shorter, pass through
unchanged when the length already equals `W`. -/
def reconcileLength (v : List ℚ) (W : ℕ) : List ℚ :=
  if W < v.length then v.take W
  else if v.length < W then v ++ List.replicate (W - v.length) 0
  else v

/-- The guard around reconciliation in `extract_features_robust`
(improved-sklearn-classifier.py, lines 110 and 113): Python's
`if scaler_expected and ...` runs the truncate/pad branches only when
`scaler_expected` is truthy, i.e. not `None` and nonzero. -/
def reconcileOpt (v : List ℚ) : Option ℕ → List ℚ
  | none => v
  | some W => if W = 0 then v else reconcileLength v W

theorem reconcileLength_length (v : List ℚ) (W : ℕ) :
    (reconcileLength v W).length = W := by
  unfold reconcileLength
  split
  · simp only [List.length_take]
    omega
  · split
    · simp only [List.length_append, List.length_replicate]
      omega
    · omega

theorem reconcileLength_of_length_eq {v : List ℚ} {W : ℕ} (h : v.length = W) :
    reconcileLength v W = v := by
  subst h
  simp [reconcileLength]

theorem reconcileLength_of_le {v : List ℚ} {W : ℕ} (h : W ≤ v.length) :
    reconcileLength v W = v.take W := by
  rcases lt_or_eq_of_le h with hlt | heq
  · unfold reconcileLength
    rw [if_pos hlt]
  · rw [reconcileLength_of_length_eq heq.symm, heq]
    exact (List.take_length v).symm

theorem reconcileLength_of_lt {v : List ℚ} {W : ℕ} (h : v.length < W) :
    reconcileLength v W = v ++ List.replicate (W - v.length) 0 := by
  unfold reconcileLength
  rw [if_neg (by omega), if_pos h]

/-- C5: length reconciliation never reorders features: truncation keeps
exactly the first `expectedLength` source entries unchanged and drops only
trailing entries, padding appends only zeros after the unchanged source
entries, and a 1200-length vector reconciled to expected width 1000 is the
source's first 1000 entries. -/
theorem c5_reconcile_never_reorders (v : List ℚ) (W : ℕ) :
    (W ≤ v.length → reconcileLength v W = v.take W)
    ∧ (v.length < W → reconcileLength v W = v ++ List.replicate (W - v.length) 0)
    ∧ (v.length = 1200 → reconcileLength v 1000 = v.take 1000) :=
  ⟨fun h => reconcileLength_of_le h,
   fun h => reconcileLength_of_lt h,
   fun h => reconcileLength_of_le (by omega)⟩

/-- Witness for C5 at the concrete 1200-length vector of the spec's example. -/
theorem c5_reconcile_never_reorders_witness :
    reconcileLength (List.replicate 1200 (7 : ℚ)) 1000
      = (List.replicate 1200 (7 : ℚ)).take 1000 :=
  (c5_reconcile_never_reorders (List.replicate 1200 (7 : ℚ)) 1000).2.2
    (by rw [List.length_replicate])

/-- C7: `reconcileLength` is idempotent: applying it twice with the same
expected width yields the same vector as applying it once, and a vector
already of the expected width is returned unchanged. -/
theorem c7_reconcile_idempotent (v : List ℚ) (W : ℕ) :
    reconcileLength (reconcileLength v W) W = reconcileLength v W
    ∧ (v.length = W → reconcileLength v W = v) :=
  ⟨reconcileLength_of_length_eq (reconcileLength_length v W),
   fun h => reconcileLength_of_length_eq h⟩

/-- Witness for C7 at concrete vectors, one shorter than the width and one
already of the expected width. -/
theorem c7_reconcile_idempotent_witness :
    reconcileLength (reconcileLength [1, 2] 5) 5 = reconcileLength [1, 2] 5
    ∧ reconcileLength [(3 : ℚ)] 1 = [3] :=
  ⟨(c7_reconcile_idempotent [1, 2] 5).1,
   (c7_reconcile_idempotent [(3 : ℚ)] 1).2 rfl⟩

/-- A pixel of an 8-bit BGR image as decoded by `cv2.imread`. -/
structure Pix where
  b : ℕ
  g : ℕ
  r : ℕ

/-- A decoded square image: side length and the BGR pixel at each
row/column coordinate. -/
structure Img where
  size : ℕ
  px : ℕ → ℕ → Pix

/-- The all-black pixel. -/
def pix0 : Pix := ⟨0, 0, 0⟩

/-- An all-black square image of side `n` (every pixel zero in every
channel). -/
def blackImg (n : ℕ) : Img := ⟨n, fun _ _ => pix0⟩

/-- The OpenCV/numpy primitives the pipeline calls: per-pixel BGR→HSV,
BGR→LAB and BGR→GRAY conversions (`cv2.cvtColor`), image resizing
(`cv2.resize`), and the square root used by `ndarray.std`.  Theorems
constrain these fields only through hypotheses restating OpenCV's documented
values at the concrete pixels they involve. -/
structure CvOps where
  hsv : Pix → ℚ × ℚ × ℚ
  lab : Pix → ℚ × ℚ × ℚ
  gray : Pix → ℚ
  resize : Img → ℕ → Img
  sqrt : ℚ → ℚ

/-- `ndarray.mean` over an `n × n` single-channel image. -/
def imgMean (n : ℕ) (f : ℕ → ℕ → ℚ) : ℚ :=
  (∑ i ∈ Finset.range n, ∑ j ∈ Finset.range n, f i j) / ((n : ℚ) * n)

/-- Population variance over an `n × n` single-channel image
(the square of `ndarray.std`). -/
def imgVar (n : ℕ) (f : ℕ → ℕ → ℚ) : ℚ :=
  imgMean n (fun i j => (f i j - imgMean n f) ^ 2)

/-- `ndarray.std` over an `n × n` single-channel image: the square root of
the population variance, taken through the `CvOps` square-root field. -/
def imgStd (ops : CvOps) (n : ℕ) (f : ℕ → ℕ → ℚ) : ℚ :=
  ops.sqrt (imgVar n f)

/-- OpenCV's `BORDER_REFLECT_101` index map used by `cv2.Sobel` at the image
border: index `-k` reflects to `k` and index `n - 1 + k` to `n - 1 - k`. -/
def reflect101 (n : ℕ) (k : ℤ) : ℕ :=
  if k < 0 then (-k).toNat
  else if (n : ℤ) ≤ k then (2 * ((n : ℤ) - 1) - k).toNat
  else k.toNat

/-- Pixel lookup with `BORDER_REFLECT_101` handling. -/
def atR (g : ℕ → ℕ → ℚ) (n : ℕ) (a b : ℤ) : ℚ :=
  g (reflect101 n a) (reflect101 n b)

/-- `cv2.Sobel(gray, CV_64F, 1, 0, ksize=3)`: horizontal-derivative kernel
`[[-1,0,1],[-2,0,2],[-1,0,1]]` at row `i`, column `j`. -/
def sobelX (g : ℕ → ℕ → ℚ) (n : ℕ) (i j : ℕ) : ℚ :=
  (atR g n ((i : ℤ) - 1) ((j : ℤ) + 1) + 2 * atR g n i ((j : ℤ) + 1)
      + atR g n ((i : ℤ) + 1) ((j : ℤ) + 1))
    - (atR g n ((i : ℤ) - 1) ((j : ℤ) - 1) + 2 * atR g n i ((j : ℤ) - 1)
      + atR g n ((i : ℤ) + 1) ((j : ℤ) - 1))

/-- `cv2.Sobel(gray, CV_64F, 0, 1, ksize=3)`: vertical-derivative kernel
(the transpose of the horizontal one). -/
def sobelY (g : ℕ → ℕ → ℚ) (n : ℕ) (i j : ℕ) : ℚ :=
  (atR g n ((i : ℤ) + 1) ((j : ℤ) - 1) + 2 * atR g n ((i : ℤ) + 1) j
      + atR g n ((i : ℤ) + 1) ((j : ℤ) + 1))
    - (atR g n ((i : ℤ) - 1) ((j : ℤ) - 1) + 2 * atR g n ((i : ℤ) - 1) j
      + atR g n ((i : ℤ) - 1) ((j : ℤ) + 1))

/-- One channel of a pixel after the BGR→RGB conversion, in R,G,B order. -/
def chanRGB (p : Pix) : ℕ → ℚ
  | 0 => p.r
  | 1 => p.g
  | _ => p.b

/-- `rgb_img.flatten()` on the BGR→RGB conversion of an `R × R` image:
row-major pixel order with interleaved R,G,B channels, `3·R²` values. -/
def rgbFlatten (R : ℕ) (img : Img) : List ℚ :=
  (List.range (R * R * 3)).map fun t => chanRGB (img.px (t / 3 / R) (t / 3 % R)) (t % 3)

/-- Hue channel of the HSV conversion of an image. -/
def hsvCh1 (ops : CvOps) (img : Img) : ℕ → ℕ → ℚ := fun i j => (ops.hsv (img.px i j)).1

/-- Saturation channel of the HSV conversion of an image. -/
def hsvCh2 (ops : CvOps) (img : Img) : ℕ → ℕ → ℚ := fun i j => (ops.hsv (img.px i j)).2.1

/-- Value channel of the HSV conversion of an image. -/
def hsvCh3 (ops : CvOps) (img : Img) : ℕ → ℕ → ℚ := fun i j => (ops.hsv (img.px i j)).2.2

/-- Lightness channel of the LAB conversion of an image. -/
def labCh1 (ops : CvOps) (img : Img) : ℕ → ℕ → ℚ := fun i j => (ops.lab (img.px i j)).1

/-- a channel of the LAB conversion of an image. -/
def labCh2 (ops : CvOps) (img : Img) : ℕ → ℕ → ℚ := fun i j => (ops.lab (img.px i j)).2.1

/-- b channel of the LAB conversion of an image. -/
def labCh3 (ops : CvOps) (img : Img) : ℕ → ℕ → ℚ := fun i j => (ops.lab (img.px i j)).2.2

/-- Grayscale conversion of an image. -/
def grayCh (ops : CvOps) (img : Img) : ℕ → ℕ → ℚ := fun i j => ops.gray (img.px i j)

/-- The feature vector composed from an already-resized `R × R` image:
flattened RGB pixels, then HSV per-channel mean and standard deviation,
LAB per-channel mean and standard deviation, and Sobel horizontal and
vertical gradient mean and standard deviation
(improved-sklearn-classifier.py lines 87–106; sklearn-plant-classifier.py
lines 78–96 with `R = 128`). -/
def composeFeatures (ops : CvOps) (R : ℕ) (img : Img) : List ℚ :=
  rgbFlatten R img ++
    [imgMean R (hsvCh1 ops img), imgMean R (hsvCh2 ops img), imgMean R (hsvCh3 ops img),
     imgStd ops R (hsvCh1 ops img), imgStd ops R (hsvCh2 ops img), imgStd ops R (hsvCh3 ops img),
     imgMean R (labCh1 ops img), imgMean R (labCh2 ops img), imgMean R (labCh3 ops img),
     imgStd ops R (labCh1 ops img), imgStd ops R (labCh2 ops img), imgStd ops R (labCh3 ops img),
     imgMean R (sobelX (grayCh ops img) R), imgStd ops R (sobelX (grayCh ops img) R),
     imgMean R (sobelY (grayCh ops img) R), imgStd ops R (sobelY (grayCh ops img) R)]

theorem rgbFlatten_length (R : ℕ) (img : Img) : (rgbFlatten R img).length = R * R * 3 := by
  simp [rgbFlatten]

theorem composeFeatures_length (ops : CvOps) (R : ℕ) (img : Img) :
    (composeFeatures ops R img).length = 3 * R * R + 16 := by
  simp only [composeFeatures, List.length_append, rgbFlatten_length]
  simp only [List.length_cons, List.length_nil]
  ring

/-- The features array `classify_image` of sklearn-plant-classifier.py passes
to `self.scaler.transform` (line 117): the composed features of the image
resized to `128 × 128`, with no length reconciliation. -/
def plainScalerInput (ops : CvOps) (img : Img) : List ℚ :=
  composeFeatures ops 128 (ops.resize img 128)

/-- The features array `classify_image_safe` of
improved-sklearn-classifier.py passes to `self.scaler.transform` on its
first attempt (line 142): the composed features of the image resized to
`64 × 64`, reconciled against the scaler's advertised width. -/
def improvedScalerInput (ops : CvOps) (img : Img) (scalerExpected : Option ℕ) : List ℚ :=
  reconcileOpt (composeFeatures ops 64 (ops.resize img 64)) scalerExpected

/-- `extract_features_robust` (improved-sklearn-classifier.py, lines 73–122)
on a decode outcome: `None` when `cv2.imread` yielded no image, otherwise
the composed features of the `64 × 64` resize, reconciled against the
scaler's advertised width. -/
def extractFeaturesRobust (ops : CvOps) (scalerExpected : Option ℕ) :
    Option Img → Option (List ℚ)
  | none => none
  | some img => some (improvedScalerInput ops img scalerExpected)

/-- `extract_features` (sklearn-plant-classifier.py, lines 65–101) on a
decode outcome: `None` when `cv2.imread` yielded no image, otherwise the
composed features of the `128 × 128` resize, unreconciled. -/
def extractFeaturesPlain (ops : CvOps) : Option Img → Option (List ℚ)
  | none => none
  | some img => some (plainScalerInput ops img)

theorem imgMean_const {n : ℕ} (hn : 0 < n) (c : ℚ) :
    imgMean n (fun _ _ => c) = c := by
  have hq : ((n : ℚ) * n) ≠ 0 := by positivity
  simp only [imgMean, Finset.sum_const, Finset.card_range, nsmul_eq_mul]
  field_simp
  ring

theorem imgVar_const {n : ℕ} (hn : 0 < n) (c : ℚ) :
    imgVar n (fun _ _ => c) = 0 := by
  unfold imgVar
  rw [imgMean_const hn c]
  have : (fun i j => (c - c) ^ 2) = fun (_ _ : ℕ) => (0 : ℚ) := by
    funext i j
    ring
  rw [this, imgMean_const hn]

theorem atR_const (c : ℚ) (n : ℕ) (a b : ℤ) : atR (fun _ _ => c) n a b = c := rfl

theorem sobelX_const (c : ℚ) (n : ℕ) :
    sobelX (fun _ _ => c) n = fun _ _ => 0 := by
  funext i j
  simp only [sobelX, atR_const]
  ring

theorem sobelY_const (c : ℚ) (n : ℕ) :
    sobelY (fun _ _ => c) n = fun _ _ => 0 := by
  funext i j
  simp only [sobelY, atR_const]
  ring

/-- OpenCV's documented 8-bit BGR→HSV formula over exact rationals
(V = max channel, S = 255·(V−min)/V with S = 0 at V = 0, H on the 0–180
half-degree scale). The uint8 rounding of the C implementation is omitted;
the formula is exact at the saturated pixels the theorems below evaluate. -/
def hsvModel (p : Pix) : ℚ × ℚ × ℚ :=
  let r : ℚ := p.r
  let g : ℚ := p.g
  let b : ℚ := p.b
  let v := max r (max g b)
  let mn := min r (min g b)
  let s := if v = 0 then 0 else 255 * (v - mn) / v
  let h0 :=
    if v = mn then 0
    else if v = r then 30 * (g - b) / (v - mn)
    else if v = g then 60 + 30 * (b - r) / (v - mn)
    else 120 + 30 * (r - g) / (v - mn)
  (if h0 < 0 then h0 + 180 else h0, s, v)

/-- The lower branch of OpenCV's LAB auxiliary function:
f(t) = 7.787·t + 16/116 for t ≤ 0.008856. -/
def labFLow (t : ℚ) : ℚ := 7787 / 1000 * t + 16 / 116

/-- OpenCV's LAB auxiliary function f(t) = t^(1/3) for t > 0.008856, else
the linear `labFLow`. The cube-root branch has no exact rational value, so
this model substitutes the identity there; every theorem below evaluates it
only below the threshold (all-black pixels), where the model is exact. -/
def labF (t : ℚ) : ℚ := if 8856 / 1000000 < t then t else labFLow t

/-- OpenCV's documented 8-bit BGR→LAB formula over exact rationals: RGB
scaled to [0,1], the XYZ matrix with D65 white-point normalisation, then
L (rescaled by 255/100 for uint8) and a, b offset by +128 for uint8.
Exact wherever only the linear branch of `labF` fires (all-black pixels). -/
def labModel (p : Pix) : ℚ × ℚ × ℚ :=
  let r : ℚ := p.r / 255
  let g : ℚ := p.g / 255
  let b : ℚ := p.b / 255
  let x := ((412453 * r + 357580 * g + 180423 * b) / 1000000) / (950456 / 1000000)
  let y := (212671 * r + 715160 * g + 72169 * b) / 1000000
  let z := ((19334 * r + 119193 * g + 950227 * b) / 1000000) / (1088754 / 1000000)
  let L := if 8856 / 1000000 < y then 116 * labF y - 16 else 9033 / 10 * y
  (L * 255 / 100, 500 * (labF x - labF y) + 128, 200 * (labF y - labF z) + 128)

/-- OpenCV's documented BGR→GRAY formula:
Y = 0.299·R + 0.587·G + 0.114·B (uint8 rounding omitted). -/
def grayModel (p : Pix) : ℚ :=
  (299 * (p.r : ℚ) + 587 * p.g + 114 * p.b) / 1000

/-- Nearest-neighbour model of `cv2.resize`; it agrees with every cv2
interpolation mode on constant images, the only images the closed theorems
below resize. -/
def resizeModel (img : Img) (R : ℕ) : Img :=
  ⟨R, fun i j => img.px (i * img.size / R) (j * img.size / R)⟩

/-- A concrete instance of the OpenCV contract, used by the closed witness
and counterexample theorems. Its fields follow OpenCV's documented
formulas and are exact on the all-black inputs those theorems evaluate
(see the individual field models for the branches where rounding or cube
roots are approximated); `sqrt` is `Rat.sqrt`, exact on perfect squares and
in particular at 0. -/
def cvBlack : CvOps :=
  ⟨hsvModel, labModel, grayModel, resizeModel, Rat.sqrt⟩

theorem cvBlack_hsv_black : cvBlack.hsv pix0 = (0, 0, 0) := by
  show hsvModel pix0 = (0, 0, 0)
  norm_num [hsvModel, pix0]

theorem cvBlack_lab_black : cvBlack.lab pix0 = (0, 128, 128) := by
  show labModel pix0 = (0, 128, 128)
  norm_num [labModel, labF, labFLow, pix0]

theorem cvBlack_gray_black : cvBlack.gray pix0 = 0 := by
  show grayModel pix0 = 0
  norm_num [grayModel, pix0]

theorem cvBlack_sqrt_zero : cvBlack.sqrt 0 = 0 := by decide

theorem cvBlack_resize_black : cvBlack.resize (blackImg 64) 64 = blackImg 64 := rfl

/-- The last 16 feature entries of the all-black 64×64 image, under the
OpenCV contract hypotheses for the black pixel: HSV mean/std and Sobel
mean/std vanish, but the LAB a/b channel means are 128. -/
theorem black_feature_tail (ops : CvOps)
    (hhsv : ops.hsv pix0 = (0, 0, 0)) (hlab : ops.lab pix0 = (0, 128, 128))
    (hgray : ops.gray pix0 = 0) (hsqrt : ops.sqrt 0 = 0) :
    (composeFeatures ops 64 (blackImg 64)).drop 12288
      = [0, 0, 0, 0, 0, 0, 0, 128, 128, 0, 0, 0, 0, 0, 0, 0] := by
  have hn : 0 < 64 := by norm_num
  have e1 : hsvCh1 ops (blackImg 64) = fun _ _ => (0 : ℚ) := by
    funext i j
    simp [hsvCh1, blackImg, hhsv]
  have e2 : hsvCh2 ops (blackImg 64) = fun _ _ => (0 : ℚ) := by
    funext i j
    simp [hsvCh2, blackImg, hhsv]
  have e3 : hsvCh3 ops (blackImg 64) = fun _ _ => (0 : ℚ) := by
    funext i j
    simp [hsvCh3, blackImg, hhsv]
  have f1 : labCh1 ops (blackImg 64) = fun _ _ => (0 : ℚ) := by
    funext i j
    simp [labCh1, blackImg, hlab]
  have f2 : labCh2 ops (blackImg 64) = fun _ _ => (128 : ℚ) := by
    funext i j
    simp [labCh2, blackImg, hlab]
  have f3 : labCh3 ops (blackImg 64) = fun _ _ => (128 : ℚ) := by
    funext i j
    simp [labCh3, blackImg, hlab]
  have eg : grayCh ops (blackImg 64) = fun _ _ => (0 : ℚ) := by
    funext i j
    simp [grayCh, blackImg, hgray]
  have hsX : sobelX (grayCh ops (blackImg 64)) 64 = fun _ _ => (0 : ℚ) := by
    rw [eg]
    exact sobelX_const 0 64
  have hsY : sobelY (grayCh ops (blackImg 64)) 64 = fun _ _ => (0 : ℚ) := by
    rw [eg]
    exact sobelY_const 0 64
  have hstd : ∀ c : ℚ, imgStd ops 64 (fun _ _ => c) = 0 := by
    intro c
    unfold imgStd
    rw [imgVar_const hn, hsqrt]
  have hlen : (rgbFlatten 64 (blackImg 64)).length = 12288 := by
    rw [rgbFlatten_length]
  unfold composeFeatures
  rw [← hlen, List.drop_left, e1, e2, e3, f1, f2, f3, hsX, hsY]
  simp only [imgMean_const hn, hstd]

/-- C3 (amended): for the all-black input image at the 64-pixel resolution,
the last 16 feature entries are `[0,0,0,0,0,0,0,128,128,0,0,0,0,0,0,0]`:
the HSV mean/stddev, LAB L-channel and all-stddev, and Sobel summaries are
zero, but the LAB a and b channel means are 128, because OpenCV's 8-bit LAB
representation offsets a and b by +128; the tail is therefore not the zero
vector the claim states. -/
theorem c3_black_image_tail (ops : CvOps)
    (hres : ops.resize (blackImg 64) 64 = blackImg 64)
    (hhsv : ops.hsv pix0 = (0, 0, 0)) (hlab : ops.lab pix0 = (0, 128, 128))
    (hgray : ops.gray pix0 = 0) (hsqrt : ops.sqrt 0 = 0) :
    (composeFeatures ops 64 (ops.resize (blackImg 64) 64)).drop 12288
      = [0, 0, 0, 0, 0, 0, 0, 128, 128, 0, 0, 0, 0, 0, 0, 0]
    ∧ (composeFeatures ops 64 (ops.resize (blackImg 64) 64)).drop 12288
      ≠ List.replicate 16 (0 : ℚ) := by
  rw [hres, black_feature_tail ops hhsv hlab hgray hsqrt]
  exact ⟨rfl, by decide⟩

/-- Witness for C3 at the concrete OpenCV model. -/
theorem c3_black_image_tail_witness :
    (composeFeatures cvBlack 64 (cvBlack.resize (blackImg 64) 64)).drop 12288
      = [0, 0, 0, 0, 0, 0, 0, 128, 128, 0, 0, 0, 0, 0, 0, 0] :=
  (c3_black_image_tail cvBlack cvBlack_resize_black cvBlack_hsv_black
    cvBlack_lab_black cvBlack_gray_black cvBlack_sqrt_zero).1

/-- C3 counterexample: at the concrete OpenCV model the last 16 feature
entries of the all-black 64×64 image are not all zero (the LAB a/b means
are 128), refuting the claim as stated. -/
theorem c3_black_image_tail_cex :
    (composeFeatures cvBlack 64 (cvBlack.resize (blackImg 64) 64)).drop 12288
      ≠ List.replicate 16 (0 : ℚ) := by
  rw [cvBlack_resize_black,
    black_feature_tail cvBlack cvBlack_hsv_black cvBlack_lab_black
      cvBlack_gray_black cvBlack_sqrt_zero]
  decide

/-- C6: feature extraction composes a vector of length exactly
`3·R² + 6 + 6 + 4` in the fixed order pixels, HSV mean/std, LAB mean/std,
Sobel mean/std; the improved variant (R = 64) yields 12304 entries and the
plain variant (R = 128) yields 49168, so the two variants produce
different-length vectors for the same image. -/
theorem c6_feature_vector_length (ops : CvOps) (R : ℕ) (img : Img) :
    (composeFeatures ops R img).length = 3 * R * R + 16
    ∧ (composeFeatures ops 64 (ops.resize img 64)).length = 12304
    ∧ (plainScalerInput ops img).length = 49168
    ∧ (12304 : ℕ) ≠ 49168 := by
  refine ⟨composeFeatures_length ops R img, ?_, ?_, by norm_num⟩
  · rw [composeFeatures_length]
  · rw [plainScalerInput, composeFeatures_length]

/-- C1 (amended): in the improved variant, whenever the persisted scaler
advertises a positive fitted width `W` (`n_features_in_`), the vector passed
to `scaler.transform` has length exactly `W` (truncate when longer, zero-pad
when shorter); the plain variant performs no reconciliation and always
passes the natural 49168-length vector, whatever the scaler expects. -/
theorem improvedScalerInput_length (ops : CvOps) (img : Img) {W : ℕ}
    (hW : 0 < W) : (improvedScalerInput ops img (some W)).length = W := by
  simp only [improvedScalerInput, reconcileOpt]
  rw [if_neg (by omega)]
  exact reconcileLength_length _ _

theorem c1_scaler_input_width (ops : CvOps) (img : Img) (W : ℕ) :
    (0 < W → (improvedScalerInput ops img (some W)).length = W)
    ∧ (plainScalerInput ops img).length = 49168 := by
  constructor
  · intro hW
    exact improvedScalerInput_length ops img hW
  · rw [plainScalerInput, composeFeatures_length]

/-- Witness for C1 at a concrete image and scaler width. -/
theorem c1_scaler_input_width_witness :
    (improvedScalerInput cvBlack (blackImg 2) (some 5)).length = 5
    ∧ (plainScalerInput cvBlack (blackImg 2)).length = 49168 :=
  ⟨(c1_scaler_input_width cvBlack (blackImg 2) 5).1 (by norm_num),
   (c1_scaler_input_width cvBlack (blackImg 2) 5).2⟩

/-- C1 counterexample: for a persisted scaler of fitted width 1000, the
plain variant (`classify_image` of sklearn-plant-classifier.py, a code
location the claim cites) passes the unreconciled 49168-length vector to
`scaler.transform`, not a vector of length 1000. -/
theorem c1_plain_no_reconcile_cex :
    (plainScalerInput cvBlack (blackImg 2)).length = 49168
    ∧ (49168 : ℕ) ≠ 1000 :=
  ⟨by rw [plainScalerInput, composeFeatures_length], by norm_num⟩

/-- The probability value at a class index; out-of-range reads yield 0
(the indices `argsort` produces are always in range). -/
def pVal (p : List ℚ) (i : ℕ) : ℚ := p.getD i 0

/-- Stable insertion of index `i` into a list of indices already sorted by
ascending probability: `i` goes after every index whose probability is ≤
its own, so indices of equal probability keep their original (ascending)
order, as in numpy's stable ascending `argsort`. -/
def insIdx (p : List ℚ) (i : ℕ) : List ℕ → List ℕ
  | [] => [i]
  | j :: rest => if pVal p j ≤ pVal p i then j :: insIdx p i rest else i :: j :: rest

/-- Insert each index of the second list, in order, into the accumulator. -/
def insAll (p : List ℚ) : List ℕ → List ℕ → List ℕ
  | acc, [] => acc
  | acc, i :: is => insAll p (insIdx p i acc) is

/-- `np.argsort(probabilities)`: the indices of the array sorted by
ascending value, equal values kept in ascending index order (numpy's
stable behaviour, which its small-array insertion sort also exhibits). -/
def argsortAsc (p : List ℚ) : List ℕ := insAll p [] (List.range p.length)

/-- `np.argsort(probabilities)[-3:][::-1]`
(improved-sklearn-classifier.py line 166, sklearn-plant-classifier.py
line 124): the last up-to-three entries of the ascending argsort,
reversed. -/
def topIndices (p : List ℚ) : List ℕ :=
  ((argsortAsc p).drop ((argsortAsc p).length - 3)).reverse

/-- Index `i` strictly precedes `j` in the ascending ranking: strictly
lower probability, or equal probability and lower class index. -/
def rankLT (p : List ℚ) (i j : ℕ) : Prop :=
  pVal p i < pVal p j ∨ (pVal p i = pVal p j ∧ i < j)

theorem mem_insIdx {p : List ℚ} {i k : ℕ} {l : List ℕ} :
    k ∈ insIdx p i l ↔ k = i ∨ k ∈ l := by
  induction l with
  | nil => simp [insIdx]
  | cons j rest ih =>
    simp only [insIdx]
    split
    · simp only [List.mem_cons, ih]
      tauto
    · simp only [List.mem_cons]

theorem pairwise_insIdx {p : List ℚ} {i : ℕ} {l : List ℕ}
    (hl : l.Pairwise (rankLT p)) (hi : ∀ j ∈ l, pVal p j = pVal p i → j < i) :
    (insIdx p i l).Pairwise (rankLT p) := by
  induction l with
  | nil => simp [insIdx, List.pairwise_cons]
  | cons j rest ih =>
    rcases List.pairwise_cons.1 hl with ⟨hj, hrest⟩
    simp only [insIdx]
    split
    · rename_i hle
      refine List.pairwise_cons.2 ⟨?_, ih hrest ?_⟩
      · intro k hk
        rcases mem_insIdx.1 hk with rfl | hkr
        · rcases lt_or_eq_of_le hle with hlt | heq
          · exact Or.inl hlt
          · exact Or.inr ⟨heq, hi j (List.mem_cons_self j rest) heq⟩
        · exact hj k hkr
      · intro k hk hpk
        exact hi k (List.mem_cons_of_mem j hk) hpk
    · rename_i hgt
      push_neg at hgt
      refine List.pairwise_cons.2 ⟨?_, hl⟩
      intro k hk
      rcases List.mem_cons.1 hk with rfl | hkr
      · exact Or.inl hgt
      · rcases hj k hkr with hlt | ⟨heq, _⟩
        · exact Or.inl (lt_trans hgt hlt)
        · exact Or.inl (heq ▸ hgt)

theorem pairwise_insAll {p : List ℚ} (is : List ℕ) :
    ∀ acc, acc.Pairwise (rankLT p) → is.Pairwise (· < ·) →
      (∀ j ∈ acc, ∀ i ∈ is, j < i) →
      (insAll p acc is).Pairwise (rankLT p) := by
  induction is with
  | nil =>
    intro acc hacc _ _
    exact hacc
  | cons i is ih =>
    intro acc hacc his hcross
    rcases List.pairwise_cons.1 his with ⟨hilt, his2⟩
    show (insAll p (insIdx p i acc) is).Pairwise (rankLT p)
    apply ih
    · exact pairwise_insIdx hacc (fun j hj _ => hcross j hj i (List.mem_cons_self i is))
    · exact his2
    · intro j hj k hk
      rcases mem_insIdx.1 hj with rfl | hja
      · exact hilt k hk
      · exact lt_trans (hcross j hja i (List.mem_cons_self i is)) (hilt k hk)

theorem argsortAsc_pairwise (p : List ℚ) : (argsortAsc p).Pairwise (rankLT p) :=
  pairwise_insAll (List.range p.length) [] List.Pairwise.nil
    (List.pairwise_lt_range _) (by simp)

/-- C2 (amended): in the ranked top-K list, candidates are ordered by
non-increasing predicted probability, but two classes of equal probability
appear with the HIGHER class index first: the code reverses a stable
ascending argsort, which flips the tie order, so ties break by descending
class index, not ascending as the claim states. -/
theorem c2_ranking_order (p : List ℚ) :
    (topIndices p).Pairwise (fun a b => rankLT p b a) := by
  unfold topIndices
  exact List.pairwise_reverse.2
    (List.Pairwise.sublist (List.drop_sublist _ _) (argsortAsc_pairwise p))

/-- Modelled from the spec's words, for comparison only: the ranking the
claim asserts — the stable descending sort of the probability array, ties
broken by ascending class index — restricted to its first three entries. -/
def specInsDesc (p : List ℚ) (i : ℕ) : List ℕ → List ℕ
  | [] => [i]
  | j :: rest => if pVal p i ≤ pVal p j then j :: specInsDesc p i rest else i :: j :: rest

/-- Modelled from the spec's words, for comparison only: insert every index
in order, keeping the list sorted by descending probability with ascending
tie order. -/
def specSortDesc (p : List ℚ) : List ℕ → List ℕ → List ℕ
  | acc, [] => acc
  | acc, i :: is => specSortDesc p (specInsDesc p i acc) is

/-- Modelled from the spec's words, for comparison only: the top-3 ranking
the claim asserts. -/
def specTop3 (p : List ℚ) : List ℕ :=
  (specSortDesc p [] (List.range p.length)).take 3

/-- C2 counterexample: for the probability array [1/4, 3/8, 3/8] the code
ranks class 2 before the equally-probable class 1, while the claimed stable
descending sort would rank class 1 first. -/
theorem c2_ranking_order_cex :
    topIndices [1 / 4, 3 / 8, 3 / 8] = [2, 1, 0]
    ∧ specTop3 [1 / 4, 3 / 8, 3 / 8] = [1, 2, 0]
    ∧ topIndices [1 / 4, 3 / 8, 3 / 8] ≠ specTop3 [1 / 4, 3 / 8, 3 / 8] := by
  refine ⟨?_, ?_, ?_⟩ <;>
    norm_num [topIndices, specTop3, argsortAsc, insAll, insIdx, specSortDesc,
      specInsDesc, pVal, List.range_succ]

/-- A Python exception as the classify code distinguishes exceptions:
whether it is a `ValueError` (the only class the inner `except` of
`classify_image_safe` catches) and its message text. -/
structure PyErr where
  isValueError : Bool
  msg : String

/-- The persisted scaler loaded from `scaler.pkl`: its advertised fitted
input width (`getattr(self.scaler, 'n_features_in_', None)`, absent on old
pickles) and its possibly-raising `transform`. -/
structure ScalerFns where
  nFeaturesIn : Option ℕ
  transform : List ℚ → Except PyErr (List ℚ)

/-- The persisted PCA reducer loaded from `pca.pkl`: its advertised
component count (read only for logging) and its possibly-raising
`transform`. -/
structure PcaFns where
  nComponents : Option ℕ
  transform : List ℚ → Except PyErr (List ℚ)

/-- The persisted classifier loaded from `Best_Model.pkl`: its optional
`classes_` attribute and its possibly-raising `predict` and
`predict_proba` (predictions are used as integer indices, as the Python
code does). -/
structure ModelFns where
  classes : Option (List String)
  predict : List ℚ → Except PyErr ℕ
  predictProba : List ℚ → Except PyErr (List ℚ)

/-- The fields of an `ImprovedSklearnClassifier` object after `__init__`:
`self.model` is `None` exactly when `load_models` failed (in which case the
scaler and PCA fields are never read, since `classify_image_safe` returns
early). -/
structure ClassifierState where
  model : Option ModelFns
  scaler : ScalerFns
  pca : PcaFns
  plantInfo : List (String × String)

/-- One ranked entry of the `top_predictions` list. -/
structure TopPred where
  plant : String
  confidence : ℚ
deriving DecidableEq

/-- The result dictionary of `classify_image_safe`; keys a branch omits are
`none`. -/
structure CResult where
  success : Bool
  error : Option String
  predictedClass : Option String
  confidence : Option ℚ
  topPredictions : List TopPred
  modelType : Option String
deriving DecidableEq

/-- The early-return dictionary when `self.model is None`
(improved-sklearn-classifier.py lines 127–131). -/
def notLoadedResult : CResult :=
  ⟨false, some "Models not loaded", none, none, [], none⟩

/-- The dictionary returned when feature extraction yields `None`
(lines 135–139). -/
def featFailResult : CResult :=
  ⟨false, some "Feature extraction failed", none, none, [], none⟩

/-- The catch-all dictionary of the outer `except` (lines 184–188). -/
def classifyFailResult (m : String) : CResult :=
  ⟨false, some ("Classification failed: " ++ m), none, none, [], none⟩

/-- Python sequence indexing, which raises `IndexError` (not a
`ValueError`) when the index is out of range. -/
def pyIndex {α : Type} (l : List α) (i : ℕ) : Except PyErr α :=
  match l.get? i with
  | some a => .ok a
  | none => .error ⟨false, "index out of range"⟩

/-- The label table `classify_image_safe` uses (lines 161–162):
`getattr(self.model, 'classes_', [f'class_{i}' for i in range(len(probabilities))])`. -/
def classNamesOf (mf : ModelFns) (probs : List ℚ) : List String :=
  mf.classes.getD ((List.range probs.length).map fun i => "class_" ++ toString i)

/-- The `top_predictions` list comprehension of `classify_image_safe`
(lines 170–176). -/
def topPredList (mf : ModelFns) (probs : List ℚ) : Except PyErr (List TopPred) :=
  (topIndices probs).mapM fun idx =>
    match pyIndex probs idx with
    | .error e => .error e
    | .ok c =>
      .ok ⟨if idx < (classNamesOf mf probs).length
             then (classNamesOf mf probs).getD idx ""
             else "class_" ++ toString idx,
           c * 100⟩

/-- The success dictionary of `classify_image_safe` (lines 165–180): a
guarded class-name lookup, the unguarded `probabilities[prediction]` numpy
read, and the ranked list. -/
def buildResult (mf : ModelFns) (probs : List ℚ) (prediction : ℕ) :
    Except PyErr CResult :=
  match pyIndex probs prediction with
  | .error e => .error e
  | .ok confRaw =>
    match topPredList mf probs with
    | .error e => .error e
    | .ok tops =>
      .ok ⟨true, none,
           some (if prediction < (classNamesOf mf probs).length
                   then (classNamesOf mf probs).getD prediction ""
                   else "unknown"),
           some (confRaw * 100), tops, some "sklearn_improved"⟩

/-- The scaling step of `classify_image_safe` (lines 141–149): a first
`scaler.transform` attempt; on a `ValueError` the inline recovery
re-reconciles against `getattr(self.scaler, 'n_features_in_',
features.shape[1])` and calls `transform` once more; any other exception
propagates. The boolean records whether the recovery branch ran. -/
def scaleStep (sc : ScalerFns) (features : List ℚ) :
    Except PyErr (List ℚ) × Bool :=
  match sc.transform features with
  | .ok fs => (.ok fs, false)
  | .error e =>
    if e.isValueError then
      (sc.transform (reconcileLength features (sc.nFeaturesIn.getD features.length)),
       true)
    else (.error e, false)

/-- The `try` body of `classify_image_safe` (lines 132–180): extract (its
`None` is answered with the feature-failure dictionary), scale with
recovery, PCA transform, predict, predict_proba, result construction. -/
def classifyBody (ops : CvOps) (sc : ScalerFns) (pc : PcaFns) (mf : ModelFns)
    (decoded : Option Img) : Except PyErr CResult × Bool :=
  match extractFeaturesRobust ops sc.nFeaturesIn decoded with
  | none => (.ok featFailResult, false)
  | some features =>
    match scaleStep sc features with
    | (.error e, recovered) => (.error e, recovered)
    | (.ok featuresScaled, recovered) =>
      match pc.transform featuresScaled with
      | .error e => (.error e, recovered)
      | .ok featuresPca =>
        match mf.predict featuresPca with
        | .error e => (.error e, recovered)
        | .ok prediction =>
          match mf.predictProba featuresPca with
          | .error e => (.error e, recovered)
          | .ok probabilities => (buildResult mf probabilities prediction, recovered)

/-- State-passing semantics of the `classify_image_safe` method: the body
reads `self.model`, `self.scaler` and `self.pca` and contains no assignment
to any `self` field, so every branch returns the incoming state; the outer
`try/except` converts an escaped exception into the catch-all failure
dictionary. -/
def classifyImageSafeSt (ops : CvOps) (decoded : Option Img)
    (s : ClassifierState) : (CResult × Bool) × ClassifierState :=
  match s.model with
  | none => ((notLoadedResult, false), s)
  | some mf =>
    match classifyBody ops s.scaler s.pca mf decoded with
    | (.ok r, recovered) => ((r, recovered), s)
    | (.error e, recovered) => ((classifyFailResult e.msg, recovered), s)

/-- The value `classify_image_safe` returns, paired with the flag recording
whether the defensive recovery branch ran. -/
def classifyImageSafe (ops : CvOps) (s : ClassifierState)
    (decoded : Option Img) : CResult × Bool :=
  (classifyImageSafeSt ops decoded s).1

/-- The hard-coded label table of `SklearnPlantClassifier.__init__`
(sklearn-plant-classifier.py lines 21–37). -/
def plantClassNames : List String :=
  ["Aloevera", "Amla", "Amruta_Balli", "Arali", "Ashoka", "Ashwagandha",
   "Avacado", "Banana", "Basale", "Betel", "Betel_Nut", "Brahmi",
   "Castor", "Catharanthus", "Chakte", "Chilly", "Citron_lime",
   "Coffee", "Commonrue", "Coriander", "Curry", "Doddpathre",
   "Drumstick", "Ekka", "Eucalyptus", "Ganike", "Ganuga", "Gasagase",
   "Ginger", "Globe_Amarnath", "Guava", "Henna", "Hibiscus", "Honge",
   "Insulin", "Jackfruit", "Jasmine", "Kambajala", "Kasambruga",
   "Kohlrabi", "Lantana", "Lemon", "Lemongrass", "Mango", "Marigold",
   "Mint", "Neem", "Nelavembu", "Nerale", "Nooni", "Onion", "Padri",
   "Palak(Spinach)", "Papaya", "Parijatha", "Pea", "Pepper",
   "Pomegranate", "Pumpkin", "Raddish", "Rose", "Rosemary", "Sapota",
   "Seethaashoka", "Seethapala", "Spinach1", "Tamarind", "Taro",
   "Tecoma", "Thumbe", "Tomato", "Tulsi", "Turmeric", "Wood_sorel"]

/-- The result dictionary of `classify_image` (sklearn-plant-classifier.py
lines 126–137); it carries no `success` or `error` key at all. -/
structure PlainResult where
  predictedClass : String
  confidence : ℚ
  topPredictions : List TopPred
deriving DecidableEq

/-- The fields of a `SklearnPlantClassifier` object after `__init__`. -/
structure PlainState where
  model : Option ModelFns
  scaler : ScalerFns
  pca : PcaFns
  classNames : List String

/-- One entry of the `top_predictions` comprehension of `classify_image`
(sklearn-plant-classifier.py lines 130–135): both lookups are unguarded
Python indexing. -/
def plainTopItem (names : List String) (probs : List ℚ) (idx : ℕ) :
    Except PyErr TopPred :=
  match pyIndex names idx with
  | .error e => .error e
  | .ok nm =>
    match pyIndex probs idx with
    | .error e => .error e
    | .ok c => .ok ⟨nm, c * 100⟩

/-- The `try` body of `classify_image` (sklearn-plant-classifier.py lines
107–139): extract (its `None` is answered by returning `None`), scale with
no recovery, PCA, predict, predict_proba, then the result dictionary whose
`self.class_names[...]` lookups are unguarded Python indexing. -/
def plainBody (ops : CvOps) (s : PlainState) (mf : ModelFns)
    (decoded : Option Img) : Except PyErr (Option PlainResult) :=
  match extractFeaturesPlain ops decoded with
  | none => .ok none
  | some features =>
    match s.scaler.transform features with
    | .error e => .error e
    | .ok featuresScaled =>
      match s.pca.transform featuresScaled with
      | .error e => .error e
      | .ok featuresPca =>
        match mf.predict featuresPca with
        | .error e => .error e
        | .ok prediction =>
          match mf.predictProba featuresPca with
          | .error e => .error e
          | .ok probabilities =>
            match pyIndex s.classNames prediction with
            | .error e => .error e
            | .ok name =>
              match pyIndex probabilities prediction with
              | .error e => .error e
              | .ok confRaw =>
                match (topIndices probabilities).mapM
                    (plainTopItem s.classNames probabilities) with
                | .error e => .error e
                | .ok tops => .ok (some ⟨name, confRaw * 100, tops⟩)

/-- State-passing semantics of the `classify_image` method: reads only, no
`self` assignment; a `None` model and every caught exception collapse to
`None`. -/
def classifyImagePlainSt (ops : CvOps) (decoded : Option Img)
    (s : PlainState) : Option PlainResult × PlainState :=
  match s.model with
  | none => (none, s)
  | some mf =>
    match plainBody ops s mf decoded with
    | .ok r => (r, s)
    | .error _ => (none, s)

/-- The value `classify_image` returns. -/
def classifyImagePlain (ops : CvOps) (s : PlainState)
    (decoded : Option Img) : Option PlainResult :=
  (classifyImagePlainSt ops decoded s).1

theorem classifyFailMsg_ne (t : String) :
    "Classification failed: " ++ t ≠ "" := by
  intro h
  have hl := congrArg String.length h
  rw [String.length_append] at hl
  have h23 : ("Classification failed: " : String).length = 23 := rfl
  have h0 : ("" : String).length = 0 := rfl
  rw [h23, h0] at hl
  omega

theorem buildResult_ok {mf : ModelFns} {probs : List ℚ} {pred : ℕ}
    {r : CResult} (h : buildResult mf probs pred = .ok r) :
    r.success = true := by
  unfold buildResult at h
  split at h
  · exact Except.noConfusion h
  · split at h
    · exact Except.noConfusion h
    · simp only [Except.ok.injEq] at h
      rw [← h]

theorem classifyBody_ok {ops : CvOps} {sc : ScalerFns} {pc : PcaFns}
    {mf : ModelFns} {decoded : Option Img} {r : CResult} {rec : Bool}
    (h : classifyBody ops sc pc mf decoded = (.ok r, rec)) :
    r = featFailResult ∨ r.success = true := by
  unfold classifyBody at h
  split at h
  · simp only [Prod.mk.injEq, Except.ok.injEq] at h
    exact Or.inl h.1.symm
  · split at h
    · simp only [Prod.mk.injEq] at h
      exact Except.noConfusion h.1
    · split at h
      · simp only [Prod.mk.injEq] at h
        exact Except.noConfusion h.1
      · split at h
        · simp only [Prod.mk.injEq] at h
          exact Except.noConfusion h.1
        · split at h
          · simp only [Prod.mk.injEq] at h
            exact Except.noConfusion h.1
          · simp only [Prod.mk.injEq] at h
            exact Or.inr (buildResult_ok h.1)

/-- C4 (amended): neither variant lets an exception escape. The improved
variant always answers with a record; on any failure that record is
`{success: false, error: m}` with `m` a non-empty string, and with the
artifacts not loaded it is the immediate `Models not loaded` record with no
classification attempted. The plain variant signals every failure —
including unloaded artifacts — by returning Python `None` instead of a
tagged record. -/
theorem c4_failure_tagged (ops : CvOps) (s : ClassifierState)
    (ps : PlainState) (decoded : Option Img) :
    ((classifyImageSafe ops s decoded).1.success = false →
       ∃ m, (classifyImageSafe ops s decoded).1.error = some m ∧ m ≠ "")
    ∧ (s.model = none →
        classifyImageSafe ops s decoded = (notLoadedResult, false))
    ∧ (∀ mf e rec, s.model = some mf →
        classifyBody ops s.scaler s.pca mf decoded = (.error e, rec) →
        (classifyImageSafe ops s decoded).1 = classifyFailResult e.msg)
    ∧ (ps.model = none → classifyImagePlain ops ps decoded = none)
    ∧ (∀ mf e, ps.model = some mf →
        plainBody ops ps mf decoded = .error e →
        classifyImagePlain ops ps decoded = none) := by
  obtain ⟨m, sc, pc, pi⟩ := s
  obtain ⟨pm, psc, ppc, pcn⟩ := ps
  refine ⟨?_, ?_, ?_, ?_, ?_⟩
  · intro hsf
    cases m with
    | none => exact ⟨"Models not loaded", rfl, by decide⟩
    | some mf =>
      rcases hb : classifyBody ops sc pc mf decoded with ⟨e | r, rec⟩
      · refine ⟨"Classification failed: " ++ e.msg, ?_, classifyFailMsg_ne e.msg⟩
        unfold classifyImageSafe classifyImageSafeSt
        dsimp only
        rw [hb]
        rfl
      · rcases classifyBody_ok hb with hfe | hsucc
        · subst hfe
          refine ⟨"Feature extraction failed", ?_, by decide⟩
          unfold classifyImageSafe classifyImageSafeSt
          dsimp only
          rw [hb]
          rfl
        · exfalso
          unfold classifyImageSafe classifyImageSafeSt at hsf
          dsimp only at hsf
          rw [hb] at hsf
          dsimp only at hsf
          rw [hsucc] at hsf
          exact Bool.noConfusion hsf
  · intro hm
    cases m with
    | none => rfl
    | some mf => exact Option.noConfusion hm
  · intro mf e rec hm hb
    cases m with
    | none => exact Option.noConfusion hm
    | some mf2 =>
      injection hm with hmf
      subst hmf
      unfold classifyImageSafe classifyImageSafeSt
      dsimp only
      rw [hb]
  · intro hm
    cases pm with
    | none => rfl
    | some mf => exact Option.noConfusion hm
  · intro mf e hm hb
    cases pm with
    | none => exact Option.noConfusion hm
    | some mf2 =>
      injection hm with hmf
      subst hmf
      unfold classifyImagePlain classifyImagePlainSt
      dsimp only
      rw [hb]

/-- A transformer stub for states whose model never loaded; never read by
the classify paths exercised on such states. -/
def scalerNever : ScalerFns := ⟨none, fun _ => .error ⟨false, "unused"⟩⟩

/-- A PCA stub for states whose model never loaded. -/
def pcaNever : PcaFns := ⟨none, fun _ => .error ⟨false, "unused"⟩⟩

/-- An improved-variant classifier object whose artifact loading failed. -/
def unloadedState : ClassifierState := ⟨none, scalerNever, pcaNever, []⟩

/-- A plain-variant classifier object whose artifact loading failed; its
label table is still populated by `__init__`. -/
def plainUnloadedState : PlainState :=
  ⟨none, scalerNever, pcaNever, plantClassNames⟩

/-- Witness for C4 at concrete unloaded states. -/
theorem c4_failure_tagged_witness :
    classifyImageSafe cvBlack unloadedState none = (notLoadedResult, false)
    ∧ classifyImagePlain cvBlack plainUnloadedState none = none :=
  ⟨(c4_failure_tagged cvBlack unloadedState plainUnloadedState none).2.1 rfl,
   (c4_failure_tagged cvBlack unloadedState plainUnloadedState none).2.2.2.1 rfl⟩

/-- C4 counterexample: with the artifacts absent, the plain variant's
classify returns Python `None`: there is no record at all, in particular
not the `{success: false, error: <non-empty string>}` record the claim
asserts for every input of both cited classify operations. -/
theorem c4_plain_returns_none_cex :
    classifyImagePlain cvBlack plainUnloadedState none = none
    ∧ ¬ ∃ r : PlainResult,
        classifyImagePlain cvBlack plainUnloadedState none = some r := by
  refine ⟨rfl, ?_⟩
  rintro ⟨r, hr⟩
  rw [show classifyImagePlain cvBlack plainUnloadedState none = none from rfl] at hr
  exact Option.noConfusion hr

/-- C9: every classify call leaves the loaded state unchanged: in the
state-passing semantics of both variants, the model, PCA reducer, scaler
and label table held by the classifier object are returned exactly as they
came in, whether the call succeeds or fails — the method bodies read fields
but never assign them. -/
theorem c9_state_unchanged (ops : CvOps) (decoded : Option Img)
    (s : ClassifierState) (ps : PlainState) :
    (classifyImageSafeSt ops decoded s).2 = s
    ∧ (classifyImagePlainSt ops decoded ps).2 = ps := by
  constructor
  · unfold classifyImageSafeSt
    split
    · rfl
    · split <;> rfl
  · unfold classifyImagePlainSt
    split
    · rfl
    · split <;> rfl

theorem classifyBody_flag (ops : CvOps) (sc : ScalerFns) (pc : PcaFns)
    (mf : ModelFns) (decoded : Option Img) {W : ℕ}
    (hW : sc.nFeaturesIn = some W) (hpos : 0 < W)
    (hVE : ∀ v e, sc.transform v = .error e → e.isValueError = true →
      v.length ≠ W) :
    (classifyBody ops sc pc mf decoded).2 = false := by
  rcases decoded with _ | img
  · rfl
  · have hlen : (improvedScalerInput ops img sc.nFeaturesIn).length = W := by
      rw [hW]
      exact improvedScalerInput_length ops img hpos
    have hss : (scaleStep sc (improvedScalerInput ops img sc.nFeaturesIn)).2 = false := by
      unfold scaleStep
      rcases ht : sc.transform (improvedScalerInput ops img sc.nFeaturesIn) with e | fs
      · have hb : e.isValueError = false := by
          cases hiv : e.isValueError
          · rfl
          · exact absurd hlen (hVE _ e ht hiv)
        simp [hb]
      · rfl
    unfold classifyBody
    simp only [extractFeaturesRobust]
    rcases hsr : scaleStep sc (improvedScalerInput ops img sc.nFeaturesIn)
      with ⟨er | fs, rec⟩
    · rw [hsr] at hss
      have hrec : rec = false := hss
      subst hrec
      rfl
    · rw [hsr] at hss
      have hrec : rec = false := hss
      subst hrec
      dsimp only
      rcases pc.transform fs with e2 | f2
      · rfl
      · dsimp only
        rcases mf.predict f2 with e3 | pr
        · rfl
        · dsimp only
          rcases mf.predictProba f2 with e4 | probs
          · rfl
          · rfl

/-- C8: when the scaler advertises a positive fitted input width, the
defensive dimension-mismatch recovery branch of `classify_image_safe` is
unreachable: pre-scaling reconciliation already hands the scaler a vector
of exactly the advertised width, so a `ValueError` that fires only on a
width mismatch never fires, and the recovery flag stays false on every
path. -/
theorem c8_recovery_unreachable (ops : CvOps) (s : ClassifierState)
    (decoded : Option Img) (W : ℕ)
    (hW : s.scaler.nFeaturesIn = some W) (hpos : 0 < W)
    (hVE : ∀ v e, s.scaler.transform v = .error e → e.isValueError = true →
      v.length ≠ W) :
    (classifyImageSafe ops s decoded).2 = false := by
  obtain ⟨m, sc, pc, pi⟩ := s
  cases m with
  | none => rfl
  | some mf =>
    have hflag := classifyBody_flag ops sc pc mf decoded hW hpos hVE
    unfold classifyImageSafe classifyImageSafeSt
    dsimp only
    rcases hb : classifyBody ops sc pc mf decoded with ⟨e | r, rec⟩
    · rw [hb] at hflag
      have hrec : rec = false := hflag
      subst hrec
      rfl
    · rw [hb] at hflag
      have hrec : rec = false := hflag
      subst hrec
      rfl

/-- A model stub whose predictions succeed trivially. -/
def mockModel : ModelFns := ⟨none, fun _ => .ok 0, fun _ => .ok []⟩

/-- A PCA stub whose transform succeeds trivially. -/
def mockPca : PcaFns := ⟨none, fun _ => .ok []⟩

/-- A scaler advertising fitted width `W` whose transform raises a
`ValueError` exactly on a width mismatch. -/
def mockScalerDim (W : ℕ) : ScalerFns :=
  ⟨some W, fun v =>
    if v.length = W then .ok v else .error ⟨true, "dimension mismatch"⟩⟩

/-- Witness for C8 at a concrete loaded state whose scaler errors exactly
on width mismatches. -/
theorem c8_recovery_unreachable_witness :
    (classifyImageSafe cvBlack ⟨some mockModel, mockScalerDim 2, mockPca, []⟩
      (some (blackImg 2))).2 = false :=
  c8_recovery_unreachable cvBlack ⟨some mockModel, mockScalerDim 2, mockPca, []⟩
    (some (blackImg 2)) 2 rfl (by norm_num)
    (by
      intro v e ht hv hl
      simp only [mockScalerDim] at ht
      rw [if_pos hl] at ht
      exact Except.noConfusion ht)

/-- C10: with a scaler that does not expose `n_features_in_`, no
reconciliation happens at all: `extract_features_robust` returns the
vector at its natural length, the recovery branch computes the expected
width as that same length so its truncate/pad is a no-op, the scaler's
error is raised again, and the call surfaces only as the catch-all
`Classification failed: ...` failure record (with the recovery branch
having run). -/
theorem c10_no_introspection (ops : CvOps) (sc : ScalerFns) (pc : PcaFns)
    (mf : ModelFns) (pinfo : List (String × String)) (img : Img) (e : PyErr)
    (hW : sc.nFeaturesIn = none)
    (ht : sc.transform (composeFeatures ops 64 (ops.resize img 64)) = .error e)
    (hVE : e.isValueError = true) :
    extractFeaturesRobust ops sc.nFeaturesIn (some img)
      = some (composeFeatures ops 64 (ops.resize img 64))
    ∧ classifyImageSafe ops ⟨some mf, sc, pc, pinfo⟩ (some img)
      = (classifyFailResult e.msg, true) := by
  have hfeat : extractFeaturesRobust ops sc.nFeaturesIn (some img)
      = some (composeFeatures ops 64 (ops.resize img 64)) := by
    rw [hW]
    rfl
  refine ⟨hfeat, ?_⟩
  have hss : scaleStep sc (composeFeatures ops 64 (ops.resize img 64))
      = (.error e, true) := by
    unfold scaleStep
    rw [ht]
    dsimp only
    rw [if_pos hVE]
    simp only [hW, Option.getD_none]
    rw [reconcileLength_of_length_eq rfl, ht]
  unfold classifyImageSafe classifyImageSafeSt classifyBody
  dsimp only
  rw [hfeat]
  dsimp only
  rw [hss]

/-- A scaler without `n_features_in_` whose transform always raises a
dimension `ValueError`. -/
def mockScalerNoIntro : ScalerFns := ⟨none, fun _ => .error ⟨true, "dim"⟩⟩

/-- Witness for C10 at a concrete loaded state whose scaler exposes no
fitted width and always raises. -/
theorem c10_no_introspection_witness :
    classifyImageSafe cvBlack ⟨some mockModel, mockScalerNoIntro, mockPca, []⟩
      (some (blackImg 2)) = (classifyFailResult "dim", true) :=
  (c10_no_introspection cvBlack mockScalerNoIntro mockPca mockModel []
    (blackImg 2) ⟨true, "dim"⟩ rfl rfl rfl).2

end Plant
